import Mathlib

/- Shallow embedding of the reader-flow health tracer
   (logdevice/common/ClientReadersFlowTracer.cpp) and of the node-configuration
   publisher (logdevice/common/NodesConfigurationPublisher.cpp).

   Conventions:
   - LSNs (lsn_t, uint64_t) are modelled as Nat; LSN_INVALID = 0 and
     LSN_MAX = 2^64 - 1 as in the source.
   - std::chrono::milliseconds values are modelled as Int (signed rep).
   - SystemClock / SteadyClock time points are modelled as Nat; the sentinel
     TimePoint::max() used for last_time_stuck_ / last_time_lagging_ is
     modelled as Option Nat with none standing for the sentinel.
   - The double slope threshold is modelled as a rational; 1.25 is exactly
     representable in binary so the initial-ttl arithmetic is exact.
   - Statistics counters are modelled as a delta function CounterName -> Int;
     the per-tag partitioning of the non-ignoring family is not modelled
     because a tracer always passes the fixed monitoring tags of its owner. -/

namespace LogDevice

/-- Health states of a read stream (enum ClientReadersFlowTracer::State). -/
inductive State where
  | HEALTHY
  | LAGGING
  | STUCK
  | STUCK_WHILE_FAILING_SYNC_SEQ_REQ
deriving DecidableEq, Repr

/-- Names of the stats counters that updateCountersForState can touch.
    The source bumps seven counters; the eighth name
    (read_streams_stuck_failing_sync_seq_req_ignoring_overload) is the
    ignoring-overload variant the spec speaks about: no code path ever adds
    to it, which is what claim C5 is about. -/
inductive CounterName where
  | read_streams_stuck_or_lagging_ignoring_overload
  | read_streams_stuck_ignoring_overload
  | read_streams_lagging_ignoring_overload
  | read_streams_stuck_failing_sync_seq_req_ignoring_overload
  | read_streams_stuck_or_lagging
  | read_streams_stuck_failing_sync_seq_req
  | read_streams_stuck
  | read_streams_lagging
deriving DecidableEq, Repr

/-- One WORKER_STAT_ADD / TAGGED_STAT_ADD call: a delta on a single counter. -/
def statAdd (c : CounterName) (increment : Int) : CounterName → Int :=
  fun x => if x = c then increment else 0

/-- updateCountersForState (ClientReadersFlowTracer.cpp, lines 50-98):
    the source performs a sequence of conditional STAT_ADD calls; the model
    returns their pointwise sum as a delta function over counter names. -/
def updateCountersForState (state : State) (ignoring_overload : Bool)
    (increment : Int) : CounterName → Int :=
  if ignoring_overload then
    (if state = State.STUCK ∨ state = State.LAGGING then
      statAdd CounterName.read_streams_stuck_or_lagging_ignoring_overload increment
    else fun _ => 0)
    +
    (if state = State.STUCK ∨ state = State.STUCK_WHILE_FAILING_SYNC_SEQ_REQ then
      statAdd CounterName.read_streams_stuck_ignoring_overload increment
    else if state = State.LAGGING then
      statAdd CounterName.read_streams_lagging_ignoring_overload increment
    else fun _ => 0)
  else
    (if state = State.STUCK ∨ state = State.LAGGING then
      statAdd CounterName.read_streams_stuck_or_lagging increment
    else fun _ => 0)
    +
    (if state = State.STUCK_WHILE_FAILING_SYNC_SEQ_REQ then
      statAdd CounterName.read_streams_stuck_failing_sync_seq_req increment
    else fun _ => 0)
    +
    (if state = State.STUCK ∨ state = State.STUCK_WHILE_FAILING_SYNC_SEQ_REQ then
      statAdd CounterName.read_streams_stuck increment
    else if state = State.LAGGING then
      statAdd CounterName.read_streams_lagging increment
    else fun _ => 0)

/-- get_initial_ttl (lines 46-48): the C++ computes 1.25 * group_size *
    num_groups in double arithmetic (1.25 = 5/4 exactly, so the product is
    exact for realistic settings) and converts it to uint16_t, which
    truncates toward zero. -/
def get_initial_ttl (group_size num_groups : Nat) : Nat :=
  5 * group_size * num_groups / 4

/-- The ceiling formula the spec states for the initial TTL
    (spec section 3, lag record).  Kept separate from get_initial_ttl so the
    two can be compared; the source truncates instead. -/
def specCeilInitialTTL (group_size num_groups : Nat) : Nat :=
  (5 * group_size * num_groups + 3) / 4

/-- lsn_t maximum (LSN_MAX), the sentinel for an unbounded read. -/
def LSN_MAX : Nat := 2 ^ 64 - 1

/-- One bucket of the time-lag record (time_lag_record_ entries). -/
structure TimeLagRecordEntry where
  time_lag : Int
  time_lag_correction : Int
  ttl : Nat
deriving DecidableEq, Repr

/-- Latched tail information (struct TailInfo): the BYTE_OFFSET counter of
    the offset map, the tail timestamp and the approximate tail LSN. -/
structure TailInfo where
  byte_offset : Int
  timestamp : Int
  lsn_approx : Nat
deriving DecidableEq, Repr

/-- The settings fields consumed by the tracer (Worker::settings()). -/
structure Settings where
  client_readers_flow_tracer_lagging_metric_num_sample_groups : Nat
  client_readers_flow_tracer_lagging_metric_sample_group_size : Nat
  client_readers_flow_tracer_lagging_slope_threshold : ℚ
  reader_stuck_threshold : Nat
deriving DecidableEq

/-- Read-only snapshot of the owning ClientReadStream taken during a call. -/
structure OwnerSnapshot where
  next_lsn_to_deliver : Nat
  until_lsn : Nat
  last_released : Nat
  last_in_record_ts : Int
  num_bytes_delivered : Nat
  num_records_delivered : Nat
deriving DecidableEq, Repr

/-- The mutable fields of ClientReadersFlowTracer that the claims are about.
    params_.tracer_period is stored in the tracer (field tracer_period);
    the EMA speeds are the double members speed_*_moving_avg_, modelled as
    rationals.  none encodes the TimePoint::max() sentinel. -/
structure Tracer where
  push_samples : Bool
  ignore_overload : Bool
  tracer_period : Int
  last_num_bytes_read : Nat
  last_num_records_read : Nat
  last_trace_time : Nat
  speed_records_moving_avg : ℚ
  speed_bytes_moving_avg : ℚ
  last_time_stuck : Option Nat
  last_time_lagging : Option Nat
  last_reported_state : State
  last_sync_seq_request_ok : Bool
  should_track : Bool
  sample_counter : Nat
  time_lag_capacity : Nat
  time_lag_record : List TimeLagRecordEntry
  latest_tail_info : Option TailInfo
  last_next_lsn_to_deliver : Nat
deriving DecidableEq

/-- estimateTailLSN (lines 689-696): start from owner last_released_ and
    take the max with the latched tail approximation when present. -/
def estimateTailLSN (t : Tracer) (o : OwnerSnapshot) : Nat :=
  match t.latest_tail_info with
  | some ti => max ti.lsn_approx o.last_released
  | none => o.last_released

/-- estimateTimeLag (lines 582-600). -/
def estimateTimeLag (t : Tracer) (o : OwnerSnapshot) : Option Int :=
  match t.latest_tail_info with
  | some ti =>
    if ti.lsn_approx < o.next_lsn_to_deliver then some 0
    else if 0 < o.last_in_record_ts then some (max (ti.timestamp - o.last_in_record_ts) 0)
    else none
  | none => none

/-- The dwell test of maybeBumpStats (line 517-518):
    last_time_stuck_ != TimePoint::max() and
    last_time_stuck_ + reader_stuck_threshold <= now. -/
def stuckDwellElapsed (settings : Settings) (t : Tracer) (now : Nat) : Bool :=
  match t.last_time_stuck with
  | some ts => decide (ts + settings.reader_stuck_threshold ≤ now)
  | none => false

/-- The state_to_report computation of maybeBumpStats (lines 510-531). -/
def stateToReport (settings : Settings) (t : Tracer) (o : OwnerSnapshot)
    (now : Nat) (force_healthy : Bool) : State :=
  if force_healthy then State.HEALTHY
  else if stuckDwellElapsed settings t now then
    if !t.last_sync_seq_request_ok && decide (estimateTailLSN t o ≤ o.next_lsn_to_deliver)
    then State.STUCK_WHILE_FAILING_SYNC_SEQ_REQ
    else State.STUCK
  else if t.last_time_lagging.isSome && decide (o.until_lsn = LSN_MAX) then
    State.LAGGING
  else State.HEALTHY

/-- maybeBumpStats (lines 510-544): recompute the state; on a change emit a
    -1 delta for the outgoing state and a +1 delta for the incoming state and
    store the new state.  Returns the updated tracer and the emitted deltas. -/
def maybeBumpStats (settings : Settings) (t : Tracer) (o : OwnerSnapshot)
    (now : Nat) (force_healthy : Bool) : Tracer × (CounterName → Int) :=
  let state_to_report := stateToReport settings t o now force_healthy
  if state_to_report ≠ t.last_reported_state then
    ({ t with last_reported_state := state_to_report },
      updateCountersForState t.last_reported_state t.ignore_overload (-1)
        + updateCountersForState state_to_report t.ignore_overload 1)
  else (t, fun _ => 0)

/-- updateTimeStuck (lines 402-423).  tail_lsn is LSN_INVALID = 0 on the
    failure path; ok is (st == E::OK).  The two inner maybeBumpStats calls
    are applied in order and their deltas summed. -/
def updateTimeStuck (settings : Settings) (t : Tracer) (o : OwnerSnapshot)
    (tail_lsn : Nat) (ok : Bool) (now : Nat) : Tracer × (CounterName → Int) :=
  let r1 :=
    if t.last_next_lsn_to_deliver ≠ o.next_lsn_to_deliver then
      maybeBumpStats settings
        { t with last_next_lsn_to_deliver := o.next_lsn_to_deliver,
                 last_time_stuck := none } o now false
    else (t, fun _ => 0)
  let t1 := r1.1
  let is_stuck := t1.should_track &&
    (!ok || decide (o.next_lsn_to_deliver ≤ min tail_lsn o.until_lsn))
  let t2 :=
    if !is_stuck then { t1 with last_time_stuck := none }
    else if t1.last_time_stuck = none then { t1 with last_time_stuck := some now }
    else t1
  let r2 := maybeBumpStats settings t2 o now false
  (r2.1, r1.2 + r2.2)

/-- Decrement of a uint16_t ttl (--s.ttl, line 452): wraps at zero.  The tick
    pops expired front buckets before decrementing, so no reachable state
    ever wraps (proved below for claim C8). -/
def decTTL (n : Nat) : Nat := if n = 0 then 65535 else n - 1

/-- The pop loop of updateTimeLagging (lines 447-449): drop front buckets
    whose ttl reached zero. -/
def popExpired (l : List TimeLagRecordEntry) : List TimeLagRecordEntry :=
  l.dropWhile (fun s => s.ttl == 0)

/-- Modelled from the spec: the container type of time_lag_record_ is
    declared in the header, which is not part of src.  The spec describes a
    bounded ring, capacity = number of sample groups, FIFO with O(1)
    front-pop and back-push, oldest to newest iteration (boost
    circular_buffer semantics): a push on a full buffer overwrites (drops)
    the oldest element, and a push on a zero-capacity buffer is a no-op. -/
def circularPushBack (capacity : Nat) (l : List TimeLagRecordEntry)
    (x : TimeLagRecordEntry) : List TimeLagRecordEntry :=
  if capacity = 0 then l
  else if l.length < capacity then l ++ [x]
  else l.tail ++ [x]

/-- time_lag of the oldest bucket (time_lag_record_.front(), line 498);
    the source only evaluates it under full(), when the record is nonempty. -/
def frontTimeLag (l : List TimeLagRecordEntry) : Int :=
  (l.head?.map (fun s => s.time_lag)).getD 0

/-- time_lag of the newest bucket (time_lag_record_.back(), line 434). -/
def backTimeLag (l : List TimeLagRecordEntry) : Int :=
  (l.getLast?.map (fun s => s.time_lag)).getD 0

/-- The cur_ts_lag selection of updateTimeLagging (lines 426-444): on success
    use the fresh estimate when available; on failure repeat the newest
    recorded lag when the record is nonempty; otherwise the function returns
    early (modelled as none). -/
def curTimeLag (t : Tracer) (o : OwnerSnapshot) (ok : Bool) : Option Int :=
  if ok then estimateTimeLag t o
  else if t.time_lag_record ≠ [] then some (backTimeLag t.time_lag_record)
  else none

/-- updateTimeLagging (lines 425-508).  Notes kept from the source:
    - the sample counter is post-incremented inside the push test (line 471),
      so the time_window expression reads the incremented counter;
    - the nested !should_track_ branch at lines 473-480 is dead code here
      because the function already returned at line 458 when not tracking,
      hence new_time_lag_correction is always 0;
    - the slope comparison multiplies the double slope threshold with the
      time window; it is modelled exactly over the rationals. -/
def updateTimeLagging (settings : Settings) (t : Tracer) (o : OwnerSnapshot)
    (ok : Bool) (now : Nat) : Tracer × (CounterName → Int) :=
  match curTimeLag t o ok with
  | none => (t, fun _ => 0)
  | some cur_ts_lag =>
    let rec2 := (popExpired t.time_lag_record).map
      (fun s => { s with ttl := decTTL s.ttl })
    if !t.should_track then
      maybeBumpStats settings
        { t with time_lag_record := rec2, last_time_lagging := none } o now false
    else
      let group_size :=
        max settings.client_readers_flow_tracer_lagging_metric_sample_group_size 1
      let slope_threshold :=
        settings.client_readers_flow_tracer_lagging_slope_threshold
      let num_groups :=
        settings.client_readers_flow_tracer_lagging_metric_num_sample_groups
      let rec3 :=
        if t.sample_counter % group_size = 0 then
          circularPushBack t.time_lag_capacity rec2
            { time_lag := cur_ts_lag, time_lag_correction := 0,
              ttl := get_initial_ttl group_size num_groups }
        else rec2
      let sample_counter1 := t.sample_counter + 1
      let time_window : Int :=
        t.tracer_period * (group_size * (num_groups - 1) + sample_counter1 % group_size)
      let correction : Int := rec3.foldl (fun acc x => acc + x.time_lag_correction) 0
      let is_catching_up :=
        decide (cur_ts_lag ≤ t.tracer_period) ||
        !(decide (rec3.length = t.time_lag_capacity)) ||
        decide (((cur_ts_lag - frontTimeLag rec3 - correction : Int) : ℚ) ≤
          slope_threshold * (time_window : ℚ))
      let t1 :=
        { t with time_lag_record := rec3, sample_counter := sample_counter1,
                 last_time_lagging :=
                   if is_catching_up then none
                   else if t.last_time_lagging = none then some now
                   else t.last_time_lagging }
      maybeBumpStats settings t1 o now false

/-- Replace the last element of a list in place (time_lag_record_.back()
    mutation in updateShouldTrack). -/
def mapLast (f : TimeLagRecordEntry → TimeLagRecordEntry) :
    List TimeLagRecordEntry → List TimeLagRecordEntry
  | [] => []
  | [x] => [f x]
  | x :: y :: rest => x :: mapLast f (y :: rest)

/-- updateShouldTrack (lines 625-659): recompute the tracking gate and, on a
    transition, move the current lag estimate in or out of the newest
    bucket correction. -/
def updateShouldTrack (t : Tracer) (o : OwnerSnapshot)
    (overloaded redelivery_timer_active window_update_pending : Bool) : Tracer :=
  let was_being_tracked := t.should_track
  let effective_overloaded := !t.ignore_overload && overloaded
  let new_should_track :=
    !effective_overloaded && !redelivery_timer_active && !window_update_pending
  let t1 := { t with should_track := new_should_track }
  if was_being_tracked && !new_should_track then
    match estimateTimeLag t o with
    | some time_lag =>
      if t.time_lag_record ≠ [] then
        { t1 with time_lag_record := (mapLast
            (fun s => { s with time_lag_correction := s.time_lag_correction - time_lag })
            t1.time_lag_record) }
      else t1
    | none => t1
  else if !was_being_tracked && new_should_track then
    match estimateTimeLag t o with
    | some time_lag =>
      if t.time_lag_record ≠ [] then
        { t1 with time_lag_record := (mapLast
            (fun s => { s with time_lag_correction := s.time_lag_correction + time_lag })
            t1.time_lag_record) }
      else t1
    | none => t1
  else t1

/-- traceReaderFlow (lines 151-237).  The EMA smoothing
    updateExponentialMovingAverage uses exp() over doubles; it is taken as a
    parameter emaStep (current value, sample, time diff) because no claim
    depends on its numeric result, only on whether it runs.  The size_t
    sample deltas wrap modulo 2^64 as in the source.  Returns the updated
    tracer and whether a sample was handed to publish(). -/
def traceReaderFlow (emaStep : ℚ → Nat → Nat → ℚ) (t : Tracer)
    (now num_bytes_read num_records_read : Nat) : Tracer × Bool :=
  if !t.push_samples then (t, false)
  else
    let time_diff := now - t.last_trace_time
    ({ t with
        speed_records_moving_avg := emaStep t.speed_records_moving_avg
          ((num_records_read + 2 ^ 64 - t.last_num_records_read) % 2 ^ 64) time_diff,
        speed_bytes_moving_avg := emaStep t.speed_bytes_moving_avg
          ((num_bytes_read + 2 ^ 64 - t.last_num_bytes_read) % 2 ^ 64) time_diff,
        last_num_bytes_read := num_bytes_read,
        last_num_records_read := num_records_read,
        last_trace_time := now }, true)

/-- LogTailAttributes as consumed by onSyncSequencerRequestResponse:
    last_released_real_lsn (0 = LSN_INVALID means absent), last_timestamp
    and the BYTE_OFFSET counter of the offset map. -/
structure TailAttributes where
  last_released_real_lsn : Nat
  last_timestamp : Int
  byte_offset : Int
deriving DecidableEq, Repr

/-- onSyncSequencerRequestResponse (lines 347-392): record the status, latch
    tail info and update the stuck clock on success-with-attributes
    (otherwise treat as failed with tail LSN_INVALID), then update the
    lagging clock, then call traceReaderFlow unconditionally.
    bumpHistograms mutates no tracer state and is omitted.  Returns the
    updated tracer and whether traceReaderFlow handed a sample to publish(). -/
def onSyncSequencerRequestResponse (emaStep : ℚ → Nat → Nat → ℚ)
    (settings : Settings) (t : Tracer) (o : OwnerSnapshot)
    (ok : Bool) (attrs : Option TailAttributes) (next_lsn : Nat)
    (now steady_now : Nat) : Tracer × Bool :=
  let t0 := { t with last_sync_seq_request_ok := ok }
  let t1 :=
    match ok, attrs with
    | true, some a =>
      let tail_lsn_approx :=
        if a.last_released_real_lsn ≠ 0 then a.last_released_real_lsn
        else next_lsn - 1
      let ta := { t0 with latest_tail_info :=
        (some ⟨a.byte_offset, a.last_timestamp, tail_lsn_approx⟩) }
      (updateTimeStuck settings ta o tail_lsn_approx ok now).1
    | _, _ =>
      (updateTimeStuck settings t0 o 0 ok now).1
  let t2 := (updateTimeLagging settings t1 o ok now).1
  traceReaderFlow emaStep t2 steady_now o.num_bytes_delivered o.num_records_delivered

/-- The shadow-tracer construction (constructor, lines 139-143): a primary
    tracer (ignore_overload = false) owns a shadow built with
    push_samples = false and ignore_overload = true; an ignoring tracer owns
    none.  The pair is (push_samples, ignore_overload) of the shadow. -/
def shadowTracerParams (_push_samples ignore_overload : Bool) :
    Option (Bool × Bool) :=
  if ignore_overload then none else some (false, true)

/-- One maybeBumpStats call: the owner snapshot and system-clock time read
    during the call, and the force_healthy flag (true only in the
    destructor, line 148). -/
structure BumpCall where
  owner : OwnerSnapshot
  now : Nat
  force_healthy : Bool
deriving DecidableEq, Repr

/-- A sequence of maybeBumpStats calls: final tracer and summed deltas. -/
def runBumps (settings : Settings) (t : Tracer) :
    List BumpCall → Tracer × (CounterName → Int)
  | [] => (t, fun _ => 0)
  | b :: rest =>
    let r := maybeBumpStats settings t b.owner b.now b.force_healthy
    let rr := runBumps settings r.1 rest
    (rr.1, r.2 + rr.2)

/-- The last_reported_state_ values observed after each maybeBumpStats call
    of a sequence. -/
def reportedTrace (settings : Settings) (t : Tracer) :
    List BumpCall → List State
  | [] => []
  | b :: rest =>
    let t1 := (maybeBumpStats settings t b.owner b.now b.force_healthy).1
    t1.last_reported_state :: reportedTrace settings t1 rest

/-- A sequence of traceReaderFlow calls (steady-clock time, cumulative bytes,
    cumulative records): final tracer and the number of samples handed to
    publish(). -/
def runTraceReaderFlow (emaStep : ℚ → Nat → Nat → ℚ) (t : Tracer) :
    List (Nat × Nat × Nat) → Tracer × Nat
  | [] => (t, 0)
  | p :: rest =>
    let r := traceReaderFlow emaStep t p.1 p.2.1 p.2.2
    let rr := runTraceReaderFlow emaStep r.1 rest
    (rr.1, (if r.2 then 1 else 0) + rr.2)

/-- The operations that can touch the time-lag record between ticks:
    a lagging tick (updateTimeLagging, reached from every tail-query
    completion) and a tracking-gate update (updateShouldTrack, reached from
    every owner callback and every timer tick). -/
inductive TracerOp where
  | lagTick (o : OwnerSnapshot) (ok : Bool) (now : Nat)
  | trackUpdate (o : OwnerSnapshot)
      (overloaded redelivery_timer_active window_update_pending : Bool)
deriving DecidableEq, Repr

/-- Apply one operation to the tracer (counter deltas discarded). -/
def applyOp (settings : Settings) (t : Tracer) : TracerOp → Tracer
  | TracerOp.lagTick o ok now => (updateTimeLagging settings t o ok now).1
  | TracerOp.trackUpdate o ov rd wp => updateShouldTrack t o ov rd wp

/-- Apply a sequence of operations under fixed settings. -/
def applyOps (settings : Settings) (t : Tracer) : List TracerOp → Tracer
  | [] => t
  | op :: rest => applyOps settings (applyOp settings t op) rest

/-- The ttl values of the record, oldest first. -/
def ttlsOf (l : List TimeLagRecordEntry) : List Nat :=
  l.map (fun s => s.ttl)

/-- Boolean check: a list of naturals is non-decreasing. -/
def nonDecreasing : List Nat → Bool
  | [] => true
  | [_] => true
  | a :: b :: rest => decide (a ≤ b) && nonDecreasing (b :: rest)

/-- Boolean check: a list of naturals is non-increasing. -/
def nonIncreasing : List Nat → Bool
  | [] => true
  | [_] => true
  | a :: b :: rest => decide (b ≤ a) && nonIncreasing (b :: rest)

/-- Invariant carried through the claim C8 induction: the ttls of the lag
    record are non-decreasing from oldest to newest and bounded by the
    initial ttl of the (fixed) settings. -/
def RecordInv (bound : Nat) (l : List TimeLagRecordEntry) : Prop :=
  List.Chain' (· ≤ ·) (ttlsOf l) ∧ ∀ n ∈ ttlsOf l, n ≤ bound

end LogDevice

namespace LogDevice

/-- Settings consumed by NodesConfigurationPublisher::publish. -/
structure PublisherSettings where
  enable_nodes_configuration_manager : Bool
  use_nodes_configuration_manager_nodes_configuration : Bool
deriving DecidableEq, Repr

/-- The three nodes-configuration views held by the UpdateableConfig, each
    identified by the identity of its shared_ptr (the source compares
    shared_ptr values, i.e. identities, not contents). -/
structure PublisherConfig where
  ncm_nc : Nat
  server_config_nc : Nat
  published_nc : Nat
deriving DecidableEq, Repr

/-- NodesConfigurationPublisher::publish (lines 43-74).  update_ok models
    the return value of updateableNodesConfiguration()->update(): on failure
    an error is logged and the previously published view stays.  Returns the
    new config state and whether an install was attempted (i.e. the chosen
    view differed by identity from the published one). -/
def publish (settings : PublisherSettings) (cfg : PublisherConfig)
    (update_ok : Bool) : PublisherConfig × Bool :=
  let from_ncm := settings.enable_nodes_configuration_manager &&
    settings.use_nodes_configuration_manager_nodes_configuration
  let nodes_configuration_to_publish :=
    if from_ncm then cfg.ncm_nc else cfg.server_config_nc
  if cfg.published_nc ≠ nodes_configuration_to_publish then
    if update_ok then
      ({ cfg with published_nc := nodes_configuration_to_publish }, true)
    else (cfg, true)
  else (cfg, false)

/-- The catch-up predicate in the words of the spec (section 4.2): catching
    up iff (a) the lag is within one tick period, or (b) the lag record is
    not yet full, or (c) lag - lag0 - correction is at most
    slope_threshold * window with window = T * (G * (N - 1) + i).
    record is the lag record at evaluation time (oldest first), lag0 its
    oldest time_lag, correction the sum of its correction terms. -/
def specCatchingUp (T : Int) (slope : ℚ) (G N cap : Nat)
    (record : List TimeLagRecordEntry) (lag : Int) (i : Nat) : Prop :=
  lag ≤ T ∨ record.length ≠ cap ∨
    ((lag - frontTimeLag record -
        record.foldl (fun acc x => acc + x.time_lag_correction) 0 : Int) : ℚ) ≤
      slope * ((T * (G * (N - 1) + i) : Int) : ℚ)

instance (T : Int) (slope : ℚ) (G N cap : Nat) (record : List TimeLagRecordEntry)
    (lag : Int) (i : Nat) : Decidable (specCatchingUp T slope G N cap record lag i) := by
  unfold specCatchingUp; infer_instance

/-- Which family a counter belongs to: true for the ignoring-overload
    variants, false for the tag-partitioned ones. -/
def counterFamilyIgnoringOverload : CounterName → Bool
  | CounterName.read_streams_stuck_or_lagging_ignoring_overload => true
  | CounterName.read_streams_stuck_ignoring_overload => true
  | CounterName.read_streams_lagging_ignoring_overload => true
  | CounterName.read_streams_stuck_failing_sync_seq_req_ignoring_overload => true
  | CounterName.read_streams_stuck_or_lagging => false
  | CounterName.read_streams_stuck_failing_sync_seq_req => false
  | CounterName.read_streams_stuck => false
  | CounterName.read_streams_lagging => false

/-- Which states each counter actually counts in the source (lines 50-98).
    The ignoring-overload variant of the stuck-failing counter counts no
    state: no code path adds to it. -/
def counterCountsState : CounterName → State → Bool
  | CounterName.read_streams_stuck_or_lagging_ignoring_overload, s =>
    s == State.STUCK || s == State.LAGGING
  | CounterName.read_streams_stuck_ignoring_overload, s =>
    s == State.STUCK || s == State.STUCK_WHILE_FAILING_SYNC_SEQ_REQ
  | CounterName.read_streams_lagging_ignoring_overload, s => s == State.LAGGING
  | CounterName.read_streams_stuck_failing_sync_seq_req_ignoring_overload, _ => false
  | CounterName.read_streams_stuck_or_lagging, s =>
    s == State.STUCK || s == State.LAGGING
  | CounterName.read_streams_stuck_failing_sync_seq_req, s =>
    s == State.STUCK_WHILE_FAILING_SYNC_SEQ_REQ
  | CounterName.read_streams_stuck, s =>
    s == State.STUCK || s == State.STUCK_WHILE_FAILING_SYNC_SEQ_REQ
  | CounterName.read_streams_lagging, s => s == State.LAGGING

/-- Concrete settings used by witnesses and counterexamples:
    tick period 1 ms, 2 sample groups of size 1, slope threshold 0,
    stuck threshold 10. -/
def demoSettings : Settings :=
  { client_readers_flow_tracer_lagging_metric_num_sample_groups := 2,
    client_readers_flow_tracer_lagging_metric_sample_group_size := 1,
    client_readers_flow_tracer_lagging_slope_threshold := 0,
    reader_stuck_threshold := 10 }

/-- Concrete owner snapshot: an unbounded read (until = LSN_MAX) positioned
    at LSN 10 with tail around LSN 50. -/
def demoOwner : OwnerSnapshot :=
  { next_lsn_to_deliver := 10, until_lsn := LSN_MAX, last_released := 50,
    last_in_record_ts := 40, num_bytes_delivered := 0,
    num_records_delivered := 0 }

/-- Concrete owner snapshot with a finite until position. -/
def demoOwnerFiniteUntil : OwnerSnapshot :=
  { demoOwner with until_lsn := 1000 }

/-- Concrete owner snapshot whose last delivered record carries the tail
    timestamp, so the estimated time lag is zero. -/
def demoOwnerZeroLag : OwnerSnapshot :=
  { demoOwner with last_in_record_ts := 100 }

/-- Concrete freshly started primary tracer with a latched tail info
    (tail timestamp 100, tail LSN 50). -/
def demoTracer : Tracer :=
  { push_samples := true, ignore_overload := false, tracer_period := 1,
    last_num_bytes_read := 0, last_num_records_read := 0, last_trace_time := 0,
    speed_records_moving_avg := 0, speed_bytes_moving_avg := 0,
    last_time_stuck := none, last_time_lagging := none,
    last_reported_state := State.HEALTHY, last_sync_seq_request_ok := true,
    should_track := true, sample_counter := 0, time_lag_capacity := 2,
    time_lag_record := [], latest_tail_info := some ⟨0, 100, 50⟩,
    last_next_lsn_to_deliver := 10 }

/-- Tracer whose stuck clock started at time 0 and whose last tail query
    failed; at time 100 the dwell threshold (10) has long elapsed. -/
def demoStuckTracer : Tracer :=
  { demoTracer with last_time_stuck := some 0,
                    last_sync_seq_request_ok := false,
                    last_next_lsn_to_deliver := 60 }

/-- Owner snapshot standing at the estimated tail (next = 50 = tail). -/
def demoOwnerAtTail : OwnerSnapshot :=
  { demoOwner with next_lsn_to_deliver := 50 }

/-- Ignoring-overload tracer about to enter
    STUCK_WHILE_FAILING_SYNC_SEQ_REQ (used against claim C5). -/
def demoIgnoringTracer : Tracer :=
  { demoStuckTracer with ignore_overload := true, push_samples := false }

/-- Settings with a single sample group of size one: the initial ttl is
    floor(1.25) = 1 while the spec ceiling would be 2 (claim C7). -/
def demoTtlSettings : Settings :=
  { demoSettings with
      client_readers_flow_tracer_lagging_metric_num_sample_groups := 1 }

/-- Tracer matching demoTtlSettings (capacity 1). -/
def demoTtlTracer : Tracer :=
  { demoTracer with time_lag_capacity := 1 }

/-- A trivial stand-in for the exponential-moving-average step, used where a
    concrete emaStep is needed. -/
def demoEmaStep : ℚ → Nat → Nat → ℚ := fun current _ _ => current

/-- The shadow tracer a primary builds: push_samples = false,
    ignore_overload = true (constructor, lines 139-143). -/
def demoShadowTracer : Tracer :=
  { demoTracer with push_samples := false, ignore_overload := true }

/-- Concrete publisher state: NCM view 7, server-config view 3, currently
    published view 3. -/
def demoPublisherConfig : PublisherConfig :=
  { ncm_nc := 7, server_config_nc := 3, published_nc := 3 }

/-- Publisher settings with both NCM flags on. -/
def demoPublisherSettings : PublisherSettings :=
  { enable_nodes_configuration_manager := true,
    use_nodes_configuration_manager_nodes_configuration := true }

/- ------------------------------------------------------------------ -/
/- Helper lemmas. -/
/- ------------------------------------------------------------------ -/

theorem updateCountersForState_healthy (ign : Bool) (inc : Int)
    (c : CounterName) : updateCountersForState State.HEALTHY ign inc c = 0 := by
  cases ign <;> cases c <;> rfl

theorem updateCountersForState_neg (s : State) (ign : Bool) (c : CounterName) :
    updateCountersForState s ign (-1) c = - updateCountersForState s ign 1 c := by
  cases s <;> cases ign <;> cases c <;> rfl

theorem maybeBumpStats_fst (settings : Settings) (t : Tracer)
    (o : OwnerSnapshot) (now : Nat) (f : Bool) :
    (maybeBumpStats settings t o now f).1 =
      { t with last_reported_state := stateToReport settings t o now f } := by
  simp only [maybeBumpStats]
  split
  · rfl
  · rename_i h
    rw [not_ne_iff.mp h]

theorem maybeBumpStats_snd (settings : Settings) (t : Tracer)
    (o : OwnerSnapshot) (now : Nat) (f : Bool) (c : CounterName) :
    (maybeBumpStats settings t o now f).2 c =
      updateCountersForState (stateToReport settings t o now f)
        t.ignore_overload 1 c
      - updateCountersForState t.last_reported_state t.ignore_overload 1 c := by
  simp only [maybeBumpStats]
  split
  · simp only [Pi.add_apply, updateCountersForState_neg]
    ring
  · rename_i h
    rw [not_ne_iff.mp h]
    simp

theorem runBumps_ignore_overload (settings : Settings) (t : Tracer)
    (bs : List BumpCall) :
    (runBumps settings t bs).1.ignore_overload = t.ignore_overload := by
  induction bs generalizing t with
  | nil => rfl
  | cons b rest ih =>
    simp only [runBumps]
    rw [ih, maybeBumpStats_fst]

theorem runBumps_reported (settings : Settings) (t : Tracer)
    (bs : List BumpCall) (c : CounterName) :
    (runBumps settings t bs).2 c =
      updateCountersForState (runBumps settings t bs).1.last_reported_state
        t.ignore_overload 1 c
      - updateCountersForState t.last_reported_state t.ignore_overload 1 c := by
  induction bs generalizing t with
  | nil => simp [runBumps]
  | cons b rest ih =>
    simp only [runBumps, Pi.add_apply]
    rw [ih, maybeBumpStats_snd]
    have hig : (maybeBumpStats settings t b.owner b.now b.force_healthy).1.ignore_overload
        = t.ignore_overload := by rw [maybeBumpStats_fst]
    have hrep : (maybeBumpStats settings t b.owner b.now b.force_healthy).1.last_reported_state
        = stateToReport settings t b.owner b.now b.force_healthy := by
      rw [maybeBumpStats_fst]
    rw [hig, hrep]
    ring

/- ------------------------------------------------------------------ -/
/- Claim theorems. -/
/- ------------------------------------------------------------------ -/

/-- C1.  Counter conservation: starting from the initial HEALTHY reported
    state, over any sequence of maybeBumpStats calls followed by the
    destructor call maybeBumpStats(force_healthy = true)
    (ClientReadersFlowTracer destructor, lines 146-149), the summed deltas
    emitted to every counter are zero: the -1 deltas cancel the +1 deltas
    in every family the tracer touches. -/
theorem counter_conservation (settings : Settings) (t0 : Tracer)
    (bs : List BumpCall) (o_d : OwnerSnapshot) (now_d : Nat)
    (h0 : t0.last_reported_state = State.HEALTHY) (c : CounterName) :
    (runBumps settings t0 bs).2 c
      + (maybeBumpStats settings (runBumps settings t0 bs).1 o_d now_d true).2 c
      = 0 := by
  rw [runBumps_reported, maybeBumpStats_snd, h0]
  rw [runBumps_ignore_overload]
  have hforce : stateToReport settings (runBumps settings t0 bs).1 o_d now_d true
      = State.HEALTHY := rfl
  rw [hforce]
  simp [updateCountersForState_healthy]

/-- C1 witness: a concrete two-tick lifetime of a tracer that becomes stuck
    and is then destroyed leaves a zero net contribution in the
    read_streams_stuck counter. -/
theorem counter_conservation_witness :
    (runBumps demoSettings demoStuckTracer
        [⟨demoOwner, 100, false⟩, ⟨demoOwner, 101, false⟩]).2
        CounterName.read_streams_stuck
      + (maybeBumpStats demoSettings
          (runBumps demoSettings demoStuckTracer
            [⟨demoOwner, 100, false⟩, ⟨demoOwner, 101, false⟩]).1
          demoOwner 102 true).2 CounterName.read_streams_stuck
      = 0 :=
  counter_conservation demoSettings demoStuckTracer
    [⟨demoOwner, 100, false⟩, ⟨demoOwner, 101, false⟩] demoOwner 102 rfl
    CounterName.read_streams_stuck

/-- C2.  Stuck classification (maybeBumpStats, lines 510-531): on a
    non-forced call the reported state is STUCK or
    STUCK_WHILE_FAILING_SYNC_SEQ_REQ exactly when last_time_stuck_ is set
    and at least reader_stuck_threshold has elapsed since it; under that
    dwell condition the failing-tail variant is reported iff the last tail
    query failed and next_lsn_to_deliver is at least estimateTailLSN()
    (which is the max of the owner last_released_ and the latched tail
    approximation, lines 689-696), and STUCK otherwise. -/
theorem stuck_classification (settings : Settings) (t : Tracer)
    (o : OwnerSnapshot) (now : Nat) :
    ((stateToReport settings t o now false = State.STUCK ∨
      stateToReport settings t o now false = State.STUCK_WHILE_FAILING_SYNC_SEQ_REQ)
      ↔ stuckDwellElapsed settings t now = true)
    ∧ (stuckDwellElapsed settings t now = true →
        stateToReport settings t o now false =
          (if t.last_sync_seq_request_ok = false ∧
              estimateTailLSN t o ≤ o.next_lsn_to_deliver
           then State.STUCK_WHILE_FAILING_SYNC_SEQ_REQ
           else State.STUCK)) := by
  unfold stateToReport
  rw [if_neg Bool.false_ne_true]
  by_cases h : stuckDwellElapsed settings t now = true
  · rw [if_pos h]
    refine ⟨⟨fun _ => h, fun _ => ?_⟩, fun _ => ?_⟩
    · split
      · exact Or.inr rfl
      · exact Or.inl rfl
    · split
      · rename_i hc
        simp only [Bool.and_eq_true, Bool.not_eq_true', decide_eq_true_eq] at hc
        rw [if_pos ⟨hc.1, hc.2⟩]
      · rename_i hc
        rw [if_neg]
        intro hcontra
        apply hc
        simp only [Bool.and_eq_true, Bool.not_eq_true', decide_eq_true_eq]
        exact ⟨hcontra.1, hcontra.2⟩
  · rw [if_neg h]
    refine ⟨⟨fun hor => ?_, fun hd => absurd hd h⟩, fun hd => absurd hd h⟩
    exfalso
    rcases hor with h1 | h1 <;> revert h1 <;> split <;> simp

/-- C2 witness: with the stuck clock at 0, threshold 10, time 100, a failed
    last tail query and the reader exactly at the estimated tail, the
    reported state is STUCK_WHILE_FAILING_SYNC_SEQ_REQ. -/
theorem stuck_classification_witness :
    stateToReport demoSettings demoStuckTracer demoOwnerAtTail 100 false
      = State.STUCK_WHILE_FAILING_SYNC_SEQ_REQ := by
  have h := (stuck_classification demoSettings demoStuckTracer
    demoOwnerAtTail 100).2 (by decide)
  rw [h]
  decide

/-- The LAGGING branch of maybeBumpStats (lines 524-528) tests
    until_lsn_ == LSN_MAX, so a finite until position can never yield
    LAGGING, whatever the rest of the state. -/
theorem stateToReport_ne_lagging (settings : Settings) (t : Tracer)
    (o : OwnerSnapshot) (now : Nat) (f : Bool)
    (h : o.until_lsn ≠ LSN_MAX) :
    stateToReport settings t o now f ≠ State.LAGGING := by
  unfold stateToReport
  split
  · simp
  · split
    · split <;> simp
    · split
      · rename_i hcond
        simp only [Bool.and_eq_true, decide_eq_true_eq] at hcond
        exact absurd hcond.2 h
      · simp

/-- C4.  Fixed-tail exemption: over an arbitrary sequence of maybeBumpStats
    calls (ticks, inner calls and destructor alike), if every call observes
    a finite until position (not the sentinel LSN_MAX) then LAGGING never
    appears among the reported states. -/
theorem fixed_tail_never_lagging (settings : Settings) (t0 : Tracer)
    (bs : List BumpCall)
    (h : ∀ b ∈ bs, b.owner.until_lsn ≠ LSN_MAX) :
    State.LAGGING ∉ reportedTrace settings t0 bs := by
  induction bs generalizing t0 with
  | nil => simp [reportedTrace]
  | cons b rest ih =>
    simp only [reportedTrace, List.mem_cons, not_or]
    constructor
    · rw [maybeBumpStats_fst]
      have := stateToReport_ne_lagging settings t0 b.owner b.now b.force_healthy
        (h b (List.mem_cons_self b rest))
      simp only []
      exact fun hc => this hc.symm
    · exact ih _ (fun x hx => h x (List.mem_cons_of_mem b hx))

/-- C4 witness: a two-tick run with a finite until position (1000) never
    reports LAGGING. -/
theorem fixed_tail_never_lagging_witness :
    State.LAGGING ∉ reportedTrace demoSettings demoTracer
      [⟨demoOwnerFiniteUntil, 1, false⟩, ⟨demoOwnerFiniteUntil, 2, false⟩] :=
  fixed_tail_never_lagging demoSettings demoTracer
    [⟨demoOwnerFiniteUntil, 1, false⟩, ⟨demoOwnerFiniteUntil, 2, false⟩]
    (by decide)

/-- C5 counterexample: an ignoring-overload tracer transitioning from
    HEALTHY into STUCK_WHILE_FAILING_SYNC_SEQ_REQ emits NO delta to the
    ignoring-overload variant of the stuck-failing-tail-query counter (the
    source, lines 57-70, has no such counter at all), contradicting the
    claim that a +1 delta is emitted there. -/
theorem stuck_failing_ignoring_counter_missing :
    (maybeBumpStats demoSettings demoIgnoringTracer demoOwnerAtTail 100
        false).1.last_reported_state = State.STUCK_WHILE_FAILING_SYNC_SEQ_REQ
    ∧ ¬ ((maybeBumpStats demoSettings demoIgnoringTracer demoOwnerAtTail 100
          false).2
          CounterName.read_streams_stuck_failing_sync_seq_req_ignoring_overload
        = 1) := by
  decide

/-- C5 amended: updateCountersForState touches exactly the counters of the
    family selected by ignoring_overload, per the membership table of
    lines 50-98 — four counters in the normal family but only three in the
    ignoring-overload family (there is no ignoring-overload variant of
    read_streams_stuck_failing_sync_seq_req; an ignoring tracer entering
    STUCK_WHILE_FAILING_SYNC_SEQ_REQ bumps only
    read_streams_stuck_ignoring_overload) — and on every reported-state
    change maybeBumpStats emits the -1 delta for the outgoing state plus
    the +1 delta for the incoming state, and nothing otherwise. -/
theorem counter_families (s : State) (ign : Bool) (inc : Int)
    (c : CounterName) (settings : Settings) (t : Tracer) (o : OwnerSnapshot)
    (now : Nat) (f : Bool) :
    (updateCountersForState s ign inc c =
      (if counterCountsState c s && (counterFamilyIgnoringOverload c == ign)
       then inc else 0))
    ∧ (stateToReport settings t o now f ≠ t.last_reported_state →
        (maybeBumpStats settings t o now f).2 c =
          updateCountersForState t.last_reported_state t.ignore_overload (-1) c
          + updateCountersForState (stateToReport settings t o now f)
              t.ignore_overload 1 c)
    ∧ (stateToReport settings t o now f = t.last_reported_state →
        (maybeBumpStats settings t o now f).2 c = 0) := by
  refine ⟨?_, ?_, ?_⟩
  · cases s <;> cases ign <;> cases c <;>
      simp [updateCountersForState, statAdd, counterCountsState,
        counterFamilyIgnoringOverload]
  · intro h
    simp only [maybeBumpStats, if_pos h]
    rfl
  · intro h
    simp only [maybeBumpStats, if_neg (not_ne_iff.mpr h)]

/-- C5 amended witness: an ignoring tracer entering the failing-tail stuck
    state bumps the ignoring-overload stuck counter by one. -/
theorem counter_families_witness :
    updateCountersForState State.STUCK_WHILE_FAILING_SYNC_SEQ_REQ true 1
      CounterName.read_streams_stuck_ignoring_overload = 1 := by
  have h := (counter_families State.STUCK_WHILE_FAILING_SYNC_SEQ_REQ true 1
    CounterName.read_streams_stuck_ignoring_overload demoSettings demoTracer
    demoOwner 0 false).1
  rw [h]
  decide

theorem traceReaderFlow_snd (emaStep : ℚ → Nat → Nat → ℚ) (t : Tracer)
    (now b r : Nat) : (traceReaderFlow emaStep t now b r).2 = t.push_samples := by
  cases h : t.push_samples <;> simp [traceReaderFlow, h]

theorem updateTimeStuck_push_samples (settings : Settings) (t : Tracer)
    (o : OwnerSnapshot) (tail_lsn : Nat) (ok : Bool) (now : Nat) :
    (updateTimeStuck settings t o tail_lsn ok now).1.push_samples
      = t.push_samples := by
  by_cases hn : t.last_next_lsn_to_deliver ≠ o.next_lsn_to_deliver
  · simp only [updateTimeStuck, if_pos hn, maybeBumpStats_fst]
    split
    · rfl
    · split <;> rfl
  · simp only [updateTimeStuck, if_neg hn, maybeBumpStats_fst]
    split
    · rfl
    · split <;> rfl

theorem updateTimeLagging_push_samples (settings : Settings) (t : Tracer)
    (o : OwnerSnapshot) (ok : Bool) (now : Nat) :
    (updateTimeLagging settings t o ok now).1.push_samples
      = t.push_samples := by
  rcases hcur : curTimeLag t o ok with _ | cur
  · simp only [updateTimeLagging, hcur]
  · simp only [updateTimeLagging, hcur]
    split <;> rw [maybeBumpStats_fst]

/-- C6 amended: onSyncSequencerRequestResponse hands a sample to publish()
    on EVERY tail-query completion — traceReaderFlow is called
    unconditionally at line 390, after the success and the failure branch
    alike — exactly when push_samples is true.  (The original claim, that a
    failure status does not trigger a publication, is refuted below.) -/
theorem sample_published_every_completion (emaStep : ℚ → Nat → Nat → ℚ)
    (settings : Settings) (t : Tracer) (o : OwnerSnapshot) (ok : Bool)
    (attrs : Option TailAttributes) (next_lsn now steady_now : Nat) :
    (onSyncSequencerRequestResponse emaStep settings t o ok attrs next_lsn
        now steady_now).2 = t.push_samples := by
  simp only [onSyncSequencerRequestResponse]
  rw [traceReaderFlow_snd, updateTimeLagging_push_samples]
  cases ok <;> rcases attrs with _ | a <;>
    simp [updateTimeStuck_push_samples]

/-- C6 amended witness: with push_samples = true, a successful completion
    with attributes publishes a sample. -/
theorem sample_published_every_completion_witness :
    (onSyncSequencerRequestResponse demoEmaStep demoSettings demoTracer
        demoOwner true (some ⟨50, 100, 0⟩) 51 100 100).2 = true := by
  have h := sample_published_every_completion demoEmaStep demoSettings
    demoTracer demoOwner true (some ⟨50, 100, 0⟩) 51 100 100
  rw [h]
  rfl

/-- C6 counterexample: a tail-query completion with a FAILURE status
    (st ≠ E::OK, no attributes) on a push_samples tracer still triggers a
    sample publication, contradicting the claim that samples are published
    exactly on successful responses. -/
theorem failed_query_still_publishes :
    (onSyncSequencerRequestResponse demoEmaStep demoSettings demoTracer
        demoOwner false none 5 100 100).2 = true := by
  decide

/-- C9.  NodesConfigurationPublisher::publish chooses the NCM view as
    authoritative iff both enable_nodes_configuration_manager and
    use_nodes_configuration_manager_nodes_configuration are set (line
    48-49), attempts an install exactly when the chosen view differs by
    identity from the published one (line 60), acts as a no-op when the
    chosen view is already published, and on a successful update the chosen
    view becomes the published one. -/
theorem publish_selection_and_idempotence (s : PublisherSettings)
    (cfg : PublisherConfig) (update_ok : Bool) :
    ((s.enable_nodes_configuration_manager = true ∧
        s.use_nodes_configuration_manager_nodes_configuration = true) →
      (if s.enable_nodes_configuration_manager &&
          s.use_nodes_configuration_manager_nodes_configuration
       then cfg.ncm_nc else cfg.server_config_nc) = cfg.ncm_nc)
    ∧ (¬ (s.enable_nodes_configuration_manager = true ∧
          s.use_nodes_configuration_manager_nodes_configuration = true) →
        (if s.enable_nodes_configuration_manager &&
            s.use_nodes_configuration_manager_nodes_configuration
         then cfg.ncm_nc else cfg.server_config_nc) = cfg.server_config_nc)
    ∧ ((publish s cfg update_ok).2 = true ↔
        cfg.published_nc ≠
          (if s.enable_nodes_configuration_manager &&
              s.use_nodes_configuration_manager_nodes_configuration
           then cfg.ncm_nc else cfg.server_config_nc))
    ∧ (cfg.published_nc =
          (if s.enable_nodes_configuration_manager &&
              s.use_nodes_configuration_manager_nodes_configuration
           then cfg.ncm_nc else cfg.server_config_nc) →
        publish s cfg update_ok = (cfg, false))
    ∧ (update_ok = true →
        (publish s cfg update_ok).1.published_nc =
          (if s.enable_nodes_configuration_manager &&
              s.use_nodes_configuration_manager_nodes_configuration
           then cfg.ncm_nc else cfg.server_config_nc)) := by
  refine ⟨?_, ?_, ?_, ?_, ?_⟩
  · intro h
    rw [if_pos (by simp [h.1, h.2])]
  · intro h
    rw [if_neg]
    simp only [Bool.and_eq_true]
    exact h
  · by_cases hd : cfg.published_nc =
      (if s.enable_nodes_configuration_manager &&
          s.use_nodes_configuration_manager_nodes_configuration
       then cfg.ncm_nc else cfg.server_config_nc)
    · simp only [publish, if_neg (not_ne_iff.mpr hd)]
      exact iff_of_false (by simp) (fun hne => hne hd)
    · simp only [publish, if_pos hd]
      cases update_ok
      · exact iff_of_true rfl hd
      · exact iff_of_true rfl hd
  · intro hd
    simp only [publish, if_neg (not_ne_iff.mpr hd)]
  · intro hok
    subst hok
    by_cases hd : cfg.published_nc =
      (if s.enable_nodes_configuration_manager &&
          s.use_nodes_configuration_manager_nodes_configuration
       then cfg.ncm_nc else cfg.server_config_nc)
    · simp only [publish, if_neg (not_ne_iff.mpr hd)]
      exact hd
    · simp only [publish, if_pos hd]
      simp

/-- C9 witness: with both flags on, NCM view 7 and published view 3, a
    publish installs view 7. -/
theorem publish_selection_and_idempotence_witness :
    (publish demoPublisherSettings demoPublisherConfig true).1.published_nc
      = 7 := by
  have h := (publish_selection_and_idempotence demoPublisherSettings
    demoPublisherConfig true).2.2.2.2 rfl
  rw [h]
  decide

/-- C10.  A tracer running with push_samples = false — in particular the
    shadow tracer, which the primary constructs with push_samples = false
    and ignore_overload = true — is inert in traceReaderFlow: the guard at
    lines 153-155 returns before the EMA updates, the cumulative snapshot
    stores and last_trace_time store, so over any sequence of completions
    the whole tracer state is unchanged, no sample is ever handed to
    publish(), and the EMA speeds stay at their value (zero from
    construction) forever. -/
theorem push_samples_false_inert (emaStep : ℚ → Nat → Nat → ℚ) (t0 : Tracer)
    (calls : List (Nat × Nat × Nat)) (h : t0.push_samples = false) :
    runTraceReaderFlow emaStep t0 calls = (t0, 0)
    ∧ (runTraceReaderFlow emaStep t0 calls).1.speed_records_moving_avg
        = t0.speed_records_moving_avg
    ∧ (runTraceReaderFlow emaStep t0 calls).1.speed_bytes_moving_avg
        = t0.speed_bytes_moving_avg
    ∧ (∀ push : Bool, shadowTracerParams push false = some (false, true)) := by
  have hrun : runTraceReaderFlow emaStep t0 calls = (t0, 0) := by
    induction calls with
    | nil => rfl
    | cons p rest ih =>
      simp only [runTraceReaderFlow, traceReaderFlow, h]
      simpa using ih
  exact ⟨hrun, by rw [hrun], by rw [hrun], fun _ => rfl⟩

/-- C10 witness: a concrete push_samples = false tracer is untouched by two
    completions and publishes nothing. -/
theorem push_samples_false_inert_witness :
    runTraceReaderFlow demoEmaStep demoShadowTracer [(5, 10, 3), (9, 20, 6)]
      = (demoShadowTracer, 0) :=
  (push_samples_false_inert demoEmaStep demoShadowTracer
    [(5, 10, 3), (9, 20, 6)] rfl).1

/-- How the is_catching_up decision is stored in last_time_lagging_
    (lines 501-505): cleared exactly when catching up, otherwise set to now
    if previously unset and kept otherwise. -/
theorem lagging_field_spec (b : Bool) (P : Prop) (hb : b = true ↔ P)
    (prev : Option Nat) (now : Nat) :
    (((if b = true then none
       else if prev = none then some now else prev) : Option Nat) = none ↔ P)
    ∧ (¬ P → ((if b = true then none
        else if prev = none then some now else prev) : Option Nat)
          = some (prev.getD now)) := by
  cases b <;> cases prev <;> simp_all

/-- C3.  Catch-up rule (updateTimeLagging, lines 461-505): on a tracked tick
    with a current lag sample, last_time_lagging_ is cleared iff the
    catch-up predicate of the spec holds, evaluated on the record after this
    tick (expired buckets popped, ttls decremented, new bucket pushed when
    due) with i the post-increment sample counter modulo group_size — the
    source reads sample_counter_ after its post-increment at line 471 — and
    when the predicate fails, last_time_lagging_ becomes now if it was
    unset and is kept unchanged otherwise. -/
theorem catch_up_rule (settings : Settings) (t : Tracer) (o : OwnerSnapshot)
    (ok : Bool) (now : Nat) (cur : Int)
    (htrack : t.should_track = true)
    (hcur : curTimeLag t o ok = some cur) :
    ((updateTimeLagging settings t o ok now).1.last_time_lagging = none ↔
      specCatchingUp t.tracer_period
        settings.client_readers_flow_tracer_lagging_slope_threshold
        (max settings.client_readers_flow_tracer_lagging_metric_sample_group_size 1)
        settings.client_readers_flow_tracer_lagging_metric_num_sample_groups
        t.time_lag_capacity
        (updateTimeLagging settings t o ok now).1.time_lag_record cur
        ((updateTimeLagging settings t o ok now).1.sample_counter %
          (max settings.client_readers_flow_tracer_lagging_metric_sample_group_size 1)))
    ∧ (¬ specCatchingUp t.tracer_period
        settings.client_readers_flow_tracer_lagging_slope_threshold
        (max settings.client_readers_flow_tracer_lagging_metric_sample_group_size 1)
        settings.client_readers_flow_tracer_lagging_metric_num_sample_groups
        t.time_lag_capacity
        (updateTimeLagging settings t o ok now).1.time_lag_record cur
        ((updateTimeLagging settings t o ok now).1.sample_counter %
          (max settings.client_readers_flow_tracer_lagging_metric_sample_group_size 1)) →
      (updateTimeLagging settings t o ok now).1.last_time_lagging =
        some (t.last_time_lagging.getD now)) := by
  have hs : (!t.should_track) = false := by rw [htrack]; rfl
  simp only [updateTimeLagging, hcur, hs, if_neg Bool.false_ne_true,
    maybeBumpStats_fst]
  exact lagging_field_spec _ _ (by
    simp only [specCatchingUp, Bool.or_eq_true, decide_eq_true_eq,
      Bool.not_eq_true', decide_eq_false_iff_not]
    tauto) t.last_time_lagging now

/-- C3 witness: on the first tracked tick of a fresh tracer (lag 60, record
    becoming a single bucket, capacity 2) the record is not yet full, the
    predicate holds, and last_time_lagging_ is cleared. -/
theorem catch_up_rule_witness :
    (updateTimeLagging demoSettings demoTracer demoOwner true 7).1.last_time_lagging
      = none :=
  ((catch_up_rule demoSettings demoTracer demoOwner true 7 60 rfl
    (by decide)).1).mpr (by decide)

theorem circularPushBack_getLast (capacity : Nat)
    (l : List TimeLagRecordEntry) (x : TimeLagRecordEntry)
    (h : 1 ≤ capacity) :
    (circularPushBack capacity l x).getLast? = some x := by
  unfold circularPushBack
  rw [if_neg (by omega)]
  split <;> exact List.getLast?_concat _

/-- C7 amended: every bucket appended by updateTimeLagging carries
    ttl = get_initial_ttl(group_size, num_groups) with group_size clamped
    to at least 1, and get_initial_ttl computes the TRUNCATION
    floor(1.25 * group_size * num_groups) = 5 * group_size * num_groups / 4
    (the C++ double-to-uint16_t conversion at line 47 truncates toward
    zero), not the ceiling the spec states.  Stated for any capacity of at
    least one (a zero-capacity buffer silently drops the push). -/
theorem initial_ttl_truncated (settings : Settings) (t : Tracer)
    (o : OwnerSnapshot) (ok : Bool) (now : Nat) (cur : Int)
    (htrack : t.should_track = true)
    (hcur : curTimeLag t o ok = some cur)
    (hpush : t.sample_counter %
      (max settings.client_readers_flow_tracer_lagging_metric_sample_group_size 1) = 0)
    (hcap : 1 ≤ t.time_lag_capacity) :
    ((updateTimeLagging settings t o ok now).1.time_lag_record.getLast?.map
        (fun s => s.ttl))
      = some (5 *
          (max settings.client_readers_flow_tracer_lagging_metric_sample_group_size 1)
          * settings.client_readers_flow_tracer_lagging_metric_num_sample_groups
          / 4) := by
  have hs : (!t.should_track) = false := by rw [htrack]; rfl
  simp only [updateTimeLagging, hcur, hs, if_neg Bool.false_ne_true,
    maybeBumpStats_fst, if_pos hpush]
  rw [circularPushBack_getLast _ _ _ hcap]
  rfl

/-- C7 amended witness: with group_size = num_groups = 1 the appended bucket
    has ttl 5 * 1 * 1 / 4 = 1. -/
theorem initial_ttl_truncated_witness :
    ((updateTimeLagging demoTtlSettings demoTtlTracer demoOwner true
        7).1.time_lag_record.getLast?.map (fun s => s.ttl)) = some 1 :=
  initial_ttl_truncated demoTtlSettings demoTtlTracer demoOwner true 7 60
    rfl (by decide) (by decide) (by decide)

/-- C7 counterexample: with group_size = num_groups = 1 the bucket appended
    on the first tick is created with ttl 1 = floor(1.25), while the
    ceiling the claim states would be 2: the code truncates. -/
theorem nonDecreasing_iff_chain (l : List Nat) :
    nonDecreasing l = true ↔ List.Chain' (· ≤ ·) l := by
  induction l with
  | nil => simp [nonDecreasing]
  | cons a as ih =>
    cases as with
    | nil => simp [nonDecreasing]
    | cons b bs =>
      rw [nonDecreasing, List.chain'_cons, Bool.and_eq_true, decide_eq_true_eq]
      exact and_congr Iff.rfl ih

theorem mem_of_mem_getLast? {α : Type} {l : List α} {a : α}
    (h : a ∈ l.getLast?) : a ∈ l := by
  rcases List.mem_getLast?_eq_getLast h with ⟨hne, rfl⟩
  exact List.getLast_mem hne

theorem ttlsOf_popExpired (l : List TimeLagRecordEntry) :
    ttlsOf (popExpired l) = (ttlsOf l).dropWhile (· == 0) := by
  induction l with
  | nil => rfl
  | cons a as ih =>
    show ttlsOf ((a :: as).dropWhile (fun s => s.ttl == 0)) = _
    have h2 : ttlsOf (a :: as) = a.ttl :: ttlsOf as := rfl
    rw [h2]
    simp only [List.dropWhile_cons]
    by_cases hz : (a.ttl == 0) = true
    · simp only [hz, if_true]
      exact ih
    · simp only [hz, if_false]
      rfl

theorem ttlsOf_decMap (l : List TimeLagRecordEntry) :
    ttlsOf (l.map (fun s => { s with ttl := decTTL s.ttl }))
      = (ttlsOf l).map decTTL := by
  simp [ttlsOf, List.map_map]

theorem ttlsOf_append_single (l : List TimeLagRecordEntry)
    (x : TimeLagRecordEntry) :
    ttlsOf (l ++ [x]) = ttlsOf l ++ [x.ttl] := by
  simp [ttlsOf]

theorem ttlsOf_tail (l : List TimeLagRecordEntry) :
    ttlsOf l.tail = (ttlsOf l).tail :=
  List.map_tail _ l

theorem dropZeros_inv : ∀ ns : List Nat, List.Chain' (· ≤ ·) ns →
    List.Chain' (· ≤ ·) (ns.dropWhile (· == 0))
      ∧ ∀ n ∈ ns.dropWhile (· == 0), 1 ≤ n
  | [], _ => ⟨List.chain'_nil, by simp⟩
  | a :: ns, h => by
    rw [List.dropWhile_cons]
    split
    · exact dropZeros_inv ns h.tail
    · rename_i ha
      have hne : a ≠ 0 := by simpa using ha
      refine ⟨h, fun n hn => ?_⟩
      rcases List.mem_cons.mp hn with rfl | hmem
      · omega
      · have hp := List.chain'_iff_pairwise.mp h
        have h1 : a ≤ n := (List.pairwise_cons.mp hp).1 n hmem
        omega

/-- The pop-and-decrement prefix of a lagging tick (lines 446-453)
    preserves the ttl invariant: expired front buckets are dropped, the
    remaining ttls are all positive (by monotonicity the expired ones form
    a prefix), and decrementing a positive uint16 does not wrap. -/
theorem rec2_inv (bound : Nat) (l : List TimeLagRecordEntry)
    (h : RecordInv bound l) :
    RecordInv bound
      ((popExpired l).map (fun s => { s with ttl := decTTL s.ttl })) := by
  obtain ⟨hchain, hbound⟩ := h
  have hts : ttlsOf ((popExpired l).map (fun s => { s with ttl := decTTL s.ttl }))
      = ((ttlsOf l).dropWhile (· == 0)).map decTTL := by
    rw [ttlsOf_decMap, ttlsOf_popExpired]
  have hdrop := dropZeros_inv (ttlsOf l) hchain
  have hcongr : ((ttlsOf l).dropWhile (· == 0)).map decTTL
      = ((ttlsOf l).dropWhile (· == 0)).map (· - 1) :=
    List.map_congr_left (fun n hn => by
      have := hdrop.1
      have hpos := hdrop.2 n hn
      unfold decTTL
      rw [if_neg (by omega)])
  constructor
  · rw [hts, hcongr]
    exact (List.chain'_map _).mpr
      (hdrop.1.imp (fun a b hab => Nat.sub_le_sub_right hab 1))
  · rw [hts, hcongr]
    intro n hn
    rcases List.mem_map.mp hn with ⟨m, hm, rfl⟩
    have hmem : m ∈ ttlsOf l := (List.dropWhile_sublist _).mem hm
    have := hbound m hmem
    omega

/-- A push of a fresh bucket whose ttl is the common bound preserves the
    invariant, whether the circular buffer evicts its oldest element or
    not. -/
theorem pushBack_inv (cap bound : Nat) (l : List TimeLagRecordEntry)
    (x : TimeLagRecordEntry) (h : RecordInv bound l) (hx : x.ttl = bound) :
    RecordInv bound (circularPushBack cap l x) := by
  obtain ⟨hchain, hbound⟩ := h
  unfold circularPushBack
  split
  · exact ⟨hchain, hbound⟩
  split
  · constructor
    · rw [ttlsOf_append_single]
      refine List.chain'_append.mpr ⟨hchain, List.chain'_singleton _, ?_⟩
      intro a ha b hb
      have hb2 : x.ttl = b := by simpa using hb
      have ha2 : a ∈ ttlsOf l := mem_of_mem_getLast? ha
      rw [← hb2, hx]
      exact hbound a ha2
    · rw [ttlsOf_append_single]
      intro n hn
      rcases List.mem_append.mp hn with hmem | hmem
      · exact hbound n hmem
      · have : n = x.ttl := by simpa using hmem
        omega
  · constructor
    · rw [ttlsOf_append_single, ttlsOf_tail]
      refine List.chain'_append.mpr ⟨hchain.tail, List.chain'_singleton _, ?_⟩
      intro a ha b hb
      have hb2 : x.ttl = b := by simpa using hb
      have ha2 : a ∈ ttlsOf l :=
        List.mem_of_mem_tail (mem_of_mem_getLast? ha)
      rw [← hb2, hx]
      exact hbound a ha2
    · rw [ttlsOf_append_single, ttlsOf_tail]
      intro n hn
      rcases List.mem_append.mp hn with hmem | hmem
      · exact hbound n (List.mem_of_mem_tail hmem)
      · have : n = x.ttl := by simpa using hmem
        omega

theorem mapLast_ttlsOf (f : TimeLagRecordEntry → TimeLagRecordEntry)
    (hf : ∀ s, (f s).ttl = s.ttl) :
    ∀ l, ttlsOf (mapLast f l) = ttlsOf l
  | [] => rfl
  | [x] => by simp [mapLast, ttlsOf, hf]
  | x :: y :: rest => by
    have ih := mapLast_ttlsOf f hf (y :: rest)
    rw [mapLast]
    rw [ttlsOf, List.map_cons, ← ttlsOf, ih]
    rfl

theorem recordInv_of_ttls_eq {bound : Nat} {l1 l2 : List TimeLagRecordEntry}
    (h : ttlsOf l1 = ttlsOf l2) (hinv : RecordInv bound l2) :
    RecordInv bound l1 := by
  unfold RecordInv at hinv ⊢
  rw [h]
  exact hinv

/-- updateShouldTrack only rewrites correction terms (lines 647-658); the
    ttl sequence of the record is untouched. -/
theorem updateShouldTrack_ttls (t : Tracer) (o : OwnerSnapshot)
    (ov rd wp : Bool) :
    ttlsOf (updateShouldTrack t o ov rd wp).time_lag_record
      = ttlsOf t.time_lag_record := by
  simp only [updateShouldTrack]
  split
  · split
    · split
      · dsimp only
        apply mapLast_ttlsOf
        intro s
        rfl
      · rfl
    · rfl
  · split
    · split
      · split
        · dsimp only
          apply mapLast_ttlsOf
          intro s
          rfl
        · rfl
      · rfl
    · rfl

/-- One lagging tick (updateTimeLagging) preserves the ttl invariant when
    every pushed bucket carries the fixed-settings initial ttl. -/
theorem lagTick_inv (settings : Settings) (t : Tracer) (o : OwnerSnapshot)
    (ok : Bool) (now : Nat)
    (h : RecordInv
      (get_initial_ttl
        (max settings.client_readers_flow_tracer_lagging_metric_sample_group_size 1)
        settings.client_readers_flow_tracer_lagging_metric_num_sample_groups)
      t.time_lag_record) :
    RecordInv
      (get_initial_ttl
        (max settings.client_readers_flow_tracer_lagging_metric_sample_group_size 1)
        settings.client_readers_flow_tracer_lagging_metric_num_sample_groups)
      (updateTimeLagging settings t o ok now).1.time_lag_record := by
  rcases hcur : curTimeLag t o ok with _ | cur
  · simpa [updateTimeLagging, hcur] using h
  · simp only [updateTimeLagging, hcur]
    split
    · rw [maybeBumpStats_fst]
      exact rec2_inv _ _ h
    · rw [maybeBumpStats_fst]
      show RecordInv _ (if _ then _ else _)
      split
      · exact pushBack_inv _ _ _ _ (rec2_inv _ _ h) rfl
      · exact rec2_inv _ _ h

/-- Any sequence of lagging ticks and tracking-gate updates under fixed
    settings preserves the ttl invariant. -/
theorem applyOps_inv (settings : Settings) (ops : List TracerOp) :
    ∀ t : Tracer,
      RecordInv
        (get_initial_ttl
          (max settings.client_readers_flow_tracer_lagging_metric_sample_group_size 1)
          settings.client_readers_flow_tracer_lagging_metric_num_sample_groups)
        t.time_lag_record →
      RecordInv
        (get_initial_ttl
          (max settings.client_readers_flow_tracer_lagging_metric_sample_group_size 1)
          settings.client_readers_flow_tracer_lagging_metric_num_sample_groups)
        (applyOps settings t ops).time_lag_record := by
  induction ops with
  | nil => exact fun t h => h
  | cons op rest ih =>
    intro t h
    refine ih _ ?_
    cases op with
    | lagTick o ok now => exact lagTick_inv settings t o ok now h
    | trackUpdate o ov rd wp =>
      exact recordInv_of_ttls_eq (updateShouldTrack_ttls t o ov rd wp) h

/-- C8 amended: starting from an empty lag record, under FIXED settings
    (one fixed tick period, group size and number of groups, hence one
    fixed initial ttl), across arbitrary sequences of lagging ticks and
    tracking-gate updates the ttls of the record are non-DEcreasing from
    the oldest bucket to the newest: an older bucket has been decremented
    more often, so the spec direction (non-increasing) is reversed, and a
    settings change can break monotonicity in either direction (the
    restriction to fixed settings is therefore necessary as well). -/
theorem ttl_order_nondecreasing (settings : Settings) (t0 : Tracer)
    (ops : List TracerOp) (h0 : t0.time_lag_record = []) :
    nonDecreasing (ttlsOf (applyOps settings t0 ops).time_lag_record)
      = true := by
  have hinit : RecordInv
      (get_initial_ttl
        (max settings.client_readers_flow_tracer_lagging_metric_sample_group_size 1)
        settings.client_readers_flow_tracer_lagging_metric_num_sample_groups)
      t0.time_lag_record := by
    rw [RecordInv, h0]
    exact ⟨List.chain'_nil, by simp [ttlsOf]⟩
  exact (nonDecreasing_iff_chain _).mpr
    (applyOps_inv settings ops t0 hinit).1

/-- C8 amended witness: two concrete ticks produce ttls [1, 2], which is
    non-decreasing. -/
theorem ttl_order_nondecreasing_witness :
    nonDecreasing (ttlsOf (applyOps demoSettings demoTracer
      [TracerOp.lagTick demoOwnerZeroLag true 1,
       TracerOp.lagTick demoOwnerZeroLag true 2]).time_lag_record) = true :=
  ttl_order_nondecreasing demoSettings demoTracer
    [TracerOp.lagTick demoOwnerZeroLag true 1,
     TracerOp.lagTick demoOwnerZeroLag true 2] rfl

/-- C8 counterexample: after two ticks under fixed settings (group size 1,
    2 groups, initial ttl 2) the record's ttls are [1, 2] — the first
    bucket has already been decremented once — so the ttls are NOT
    non-increasing from oldest to newest as the claim states. -/
theorem ttl_order_nonincreasing_refuted :
    ttlsOf (applyOps demoSettings demoTracer
      [TracerOp.lagTick demoOwnerZeroLag true 1,
       TracerOp.lagTick demoOwnerZeroLag true 2]).time_lag_record = [1, 2]
    ∧ nonIncreasing (ttlsOf (applyOps demoSettings demoTracer
      [TracerOp.lagTick demoOwnerZeroLag true 1,
       TracerOp.lagTick demoOwnerZeroLag true 2]).time_lag_record)
      = false := by
  decide

theorem initial_ttl_not_ceiling :
    ttlsOf (updateTimeLagging demoTtlSettings demoTtlTracer demoOwnerZeroLag
        true 7).1.time_lag_record = [get_initial_ttl 1 1]
    ∧ get_initial_ttl 1 1 = 1
    ∧ specCeilInitialTTL 1 1 = 2
    ∧ get_initial_ttl 1 1 ≠ specCeilInitialTTL 1 1 := by
  decide

end LogDevice
